import Mathlib

/-!
Verification development for the photoAlbum repository: a shallow embedding
of the local store (services/db.ts), the EXIF extractor (services/exifService.ts),
the captioning-result handling and the automatic analysis scheduler of the
AlbumBook component, together with theorems about the documented behaviour.

Conventions of the embedding:
* JavaScript numbers that hold epoch milliseconds or identifiers are `Nat`
  (they are non-negative integers in every execution of this code); signed
  time arithmetic in the rate limiter uses `Int`; EXIF coordinate arithmetic
  uses `ℚ` (the source values are exact small rationals, far inside the range
  where double arithmetic is exact enough for the stated 1e-4 tolerance).
* A JavaScript object spread `{ ...p, ...patch }` is modelled field by field:
  a key present in the patch overrides, an absent key keeps the old value;
  `Option` encodes key presence.
* Asynchronous store and network calls are modelled by explicit state passing;
  the outcome of the external captioning request is a parameter.
-/

namespace PhotoAlbum

/-- Album themes (src/types.ts, `Album.theme`). -/
inductive Theme
  | vintage
  | minimal
  | notebook
deriving DecidableEq, Repr

/-- Photo filter selectors (src/types.ts, `Photo.filter`). -/
inductive Filter
  | original
  | vintage
  | bw
  | sepia
  | polaroid
  | cool
  | warm
  | dramatic
deriving DecidableEq, Repr

/-- A recognized landmark entry (src/types.ts, `Photo.landmarks` element). -/
structure Landmark where
  name : String
  url : String
  description : String
deriving DecidableEq, Repr

/-- A photo record (src/types.ts `Photo`). The raw image blob carries no
information the verified operations inspect, so it is elided; `timestamp`
is epoch milliseconds. `id` is the store-assigned identifier (Dexie `++id`,
starting at 1). -/
structure Photo where
  id : Nat
  albumId : Nat
  mimeType : String
  timestamp : Nat
  description : Option String := none
  location : Option String := none
  latitude : Option ℚ := none
  longitude : Option ℚ := none
  landmarks : Option (List Landmark) := none
  processed : Bool
  filter : Option Filter := none
deriving DecidableEq, Repr

/-- An album record (src/types.ts `Album`). `createdAt` is epoch milliseconds. -/
structure Album where
  id : Nat
  title : String
  coverPhotoId : Option Nat := none
  createdAt : Nat
  theme : Theme
deriving DecidableEq, Repr

/-- The persisted state of the two Dexie tables (services/db.ts,
`NostalgiaDatabase`): the `albums` and `photos` collections plus the
auto-increment counters behind the `++id` key declarations. -/
structure Store where
  albums : List Album
  photos : List Photo
  nextAlbumId : Nat
  nextPhotoId : Nat
deriving DecidableEq, Repr

/-- The structured captioning result (services/geminiService.ts,
`GeminiAnalysisResult`): a caption, an optional location string and an
optional landmark list. -/
structure GeminiAnalysisResult where
  description : String
  location : Option String := none
  landmarks : Option (List Landmark) := none
deriving DecidableEq, Repr

/-- The partial-update argument of `updatePhotoMetadata` (services/db.ts):
each field is present (`some`) or absent (`none`) in the JavaScript object. -/
structure MetadataPatch where
  description : Option String := none
  location : Option String := none
  timestamp : Option Nat := none
  landmarks : Option (List Landmark) := none
  filter : Option Filter := none
deriving DecidableEq, Repr

/-- Field-level merge of a partial update into a photo record: Dexie's
`update(id, changes)` sets exactly the keys present in `changes`. -/
def applyPatch (p : Photo) (m : MetadataPatch) : Photo :=
  { p with
    description := match m.description with | some v => some v | none => p.description
    location := match m.location with | some v => some v | none => p.location
    timestamp := match m.timestamp with | some v => v | none => p.timestamp
    landmarks := match m.landmarks with | some v => some v | none => p.landmarks
    filter := match m.filter with | some v => some v | none => p.filter }

/-- `updatePhotoMetadata` (services/db.ts lines 66-80):
`db.photos.update(id, { ...metadata, processed: true })` — the supplied
fields are merged into the record with the matching identifier and the
`processed` flag is set to `true` unconditionally. -/
def updatePhotoMetadata (s : Store) (id : Nat) (m : MetadataPatch) : Store :=
  { s with photos := s.photos.map fun p =>
      if p.id = id then { applyPatch p m with processed := true } else p }

/-- Body of the `deleteAlbum` transaction (services/db.ts lines 35-41):
delete every photo whose `albumId` equals the deleted identifier, then
delete the album record itself. -/
def deleteAlbumApply (s : Store) (id : Nat) : Store :=
  { s with
    photos := s.photos.filter fun p => p.albumId != id
    albums := s.albums.filter fun a => a.id != id }

/-- `deleteAlbum` (services/db.ts lines 35-41) wraps `deleteAlbumApply` in a
Dexie `'rw'` transaction over both tables; per the transaction contract the
write set either commits as a whole or the transaction aborts leaving both
tables untouched. `ok` is whether the transaction commits. -/
def deleteAlbum (s : Store) (id : Nat) (ok : Bool) : Store :=
  if ok then deleteAlbumApply s id else s

/-- An image file handed to the import boundary. `mimeType` is `file.type`,
`lastModified` is `file.lastModified` (epoch ms); the `exif*` fields are the
metadata embedded in the file, i.e. what the Metadata Extractor would
report for it (the binary EXIF segment itself is not re-modelled). -/
structure ImportFile where
  mimeType : String
  lastModified : Nat
  exifDate : Option Nat := none
  exifLatitude : Option ℚ := none
  exifLongitude : Option ℚ := none
deriving DecidableEq, Repr

/-- Extractor output record (services/exifService.ts, `ExifData`). -/
structure ExifData where
  date : Option Nat := none
  latitude : Option ℚ := none
  longitude : Option ℚ := none
deriving DecidableEq, Repr

/-- `getExifData` (services/exifService.ts): best-effort extraction of the
optional capture date and GPS coordinates of a file; with the EXIF tags
abstracted as attributes of `ImportFile`, extraction reads them off. -/
def getExifData (f : ImportFile) : ExifData :=
  { date := f.exifDate, latitude := f.exifLatitude, longitude := f.exifLongitude }

/-- `addPhotoToAlbum` (services/db.ts lines 43-52): creates a photo record
from a file with `timestamp: new Date(file.lastModified)`,
`processed: false` and `filter: 'original'`; no other metadata fields are
supplied, so the record is created without description, location,
coordinates or landmarks. Returns the new store and the assigned id. -/
def addPhotoToAlbum (s : Store) (albumId : Nat) (file : ImportFile) : Store × Nat :=
  let newPhoto : Photo :=
    { id := s.nextPhotoId
      albumId := albumId
      mimeType := file.mimeType
      timestamp := file.lastModified
      processed := false
      filter := some Filter.original }
  ({ s with photos := s.photos ++ [newPhoto], nextPhotoId := s.nextPhotoId + 1 }, s.nextPhotoId)

/-- The mime filter of the import boundary
(AlbumShelf `handleFilesSelected` / AlbumBook `handlePhotosAdded`):
`f.type.startsWith('image/')`, realized over the character list. -/
def isImageFile (f : ImportFile) : Bool :=
  "image/".data.isPrefixOf f.mimeType.data

/-- `handlePhotosAdded` (AlbumBook): filters the selected batch to image
mime types and calls `addPhotoToAlbum` for each accepted file. -/
def handlePhotosAdded (s : Store) (albumId : Nat) (files : List ImportFile) : Store :=
  (files.filter isImageFile).foldl (fun st f => (addPhotoToAlbum st albumId f).1) s

/-- `getAlbumPhotos` (services/db.ts): the photos whose `albumId` matches. -/
def getAlbumPhotos (s : Store) (albumId : Nat) : List Photo :=
  s.photos.filter fun p => p.albumId == albumId

/-- `loadPhotos` (AlbumBook): reads the album's photos and sorts them by
timestamp ascending before storing them in the component state. -/
def loadPhotos (s : Store) (albumId : Nat) : List Photo :=
  (getAlbumPhotos s albumId).insertionSort fun a b => a.timestamp ≤ b.timestamp

/-- Outcome of one captioning attempt, as the AlbumBook `handleAnalyze`
handler distinguishes it. Modelled from the spec: the captioning-client
revision this handler is written against — `analyzePhoto` resolving `null`
on a non-fatal failure (malformed response, empty body) and rejecting with
a `FATAL_QUOTA_EXCEEDED` error on a quota/rate-limit rejection — is not
among the source files; only its caller is. §4.4 of the specification
distinguishes exactly these three outcomes: a structured result, a
non-fatal failure, and a fatal quota/rate-limit failure. -/
inductive AnalyzeOutcome
  | success (r : GeminiAnalysisResult)
  | nonFatal
  | fatalQuota
deriving DecidableEq, Repr

/-- The toast emitted when the automatic run stops on a quota rejection
(AlbumBook `handleAnalyze`, catch branch). -/
def fatalStopToast : String := "Auto-analysis stopped: Quota exceeded (API 429)."

/-- The toast emitted when the automatic run finds no remaining candidate
(AlbumBook auto-analyze effect). -/
def completeToast : String := "Auto-analysis complete"

/-- The AlbumBook component state the scheduler touches: the local `photos`
array, the `analyzingIds` in-flight set, the `isAutoAnalyzing` run flag,
the `lastAnalysisTime` ref, the persisted store, and the toasts shown so
far (newest first). -/
structure BookState where
  photos : List Photo
  analyzingIds : List Nat
  isAutoAnalyzing : Bool
  lastAnalysisTime : Nat
  store : Store
  toasts : List String
deriving DecidableEq, Repr

/-- The metadata patch `handleAnalyze` persists on success: the result
object itself, so the caption is always written and location/landmarks are
written when present in the parsed response. -/
def patchOfResult (r : GeminiAnalysisResult) : MetadataPatch :=
  { description := some r.description, location := r.location, landmarks := r.landmarks }

/-- The local-state merge on success (AlbumBook `handleAnalyze`):
`{ ...p, ...result, processed: true }` — keys present in the result
override, absent keys keep the photo's value. -/
def applyResultLocal (p : Photo) (r : GeminiAnalysisResult) : Photo :=
  { p with
    description := some r.description
    location := match r.location with | some v => some v | none => p.location
    landmarks := match r.landmarks with | some v => some v | none => p.landmarks
    processed := true }

/-- Entry of `handleAnalyze` before the awaited captioning call: the photo
id is added to the `analyzingIds` in-flight set. -/
def beginAnalyze (st : BookState) (p : Photo) : BookState :=
  { st with analyzingIds := p.id :: st.analyzingIds }

/-- Resumption of `handleAnalyze` when the captioning call settles
(AlbumBook, part of lines 954-995): a truthy result is persisted via
`updatePhotoMetadata` and merged into the local state; a `null` result is
persisted as an empty patch (`updatePhotoMetadata(photo.id, {})`), marking
the photo processed without overwriting notes; a `FATAL_QUOTA_EXCEEDED`
rejection clears the run flag and shows the quota toast without touching
the photo. The `finally` block removes the id from the in-flight set. -/
def finishAnalyze (st : BookState) (p : Photo) (o : AnalyzeOutcome) : BookState :=
  let st' : BookState :=
    match o with
    | AnalyzeOutcome.success r =>
        { st with
          store := updatePhotoMetadata st.store p.id (patchOfResult r)
          photos := st.photos.map fun q => if q.id = p.id then applyResultLocal q r else q }
    | AnalyzeOutcome.nonFatal =>
        { st with
          store := updatePhotoMetadata st.store p.id {}
          photos := st.photos.map fun q =>
            if q.id = p.id then { q with processed := true } else q }
    | AnalyzeOutcome.fatalQuota =>
        { st with isAutoAnalyzing := false, toasts := fatalStopToast :: st.toasts }
  { st' with analyzingIds := st'.analyzingIds.erase p.id }

/-- `handleAnalyze` (AlbumBook lines 954-995) as one atomic step, with the
captioning outcome as a parameter: the guard
`if (!photo.id || analyzingIds.has(photo.id)) return` re-enters nothing
for a photo already in flight (or with a falsy id); otherwise the id is
added to the in-flight set, the outcome is applied, and the `finally`
block removes the id again. -/
def handleAnalyze (st : BookState) (p : Photo) (o : AnalyzeOutcome) : BookState :=
  if p.id = 0 ∨ p.id ∈ st.analyzingIds then st
  else finishAnalyze (beginAnalyze st p) p o

/-- Candidate selection of the auto-analyze effect (AlbumBook lines
869-880): `photos.find(p => !p.processed && !analyzingIds.has(p.id))`. -/
def selectNext (photos : List Photo) (analyzingIds : List Nat) : Option Photo :=
  photos.find? fun p => !p.processed && !(analyzingIds.contains p.id)

/-- One cycle of the auto-analyze effect's `processNext` (AlbumBook): bail
out if the run flag was cleared; stop with the completion toast when no
unprocessed, non-in-flight photo remains; otherwise record the request
start time in `lastAnalysisTime` and analyze the selected photo. -/
def processNext (st : BookState) (now : Nat) (outcomeOf : Nat → AnalyzeOutcome) : BookState :=
  if !st.isAutoAnalyzing then st
  else
    match selectNext st.photos st.analyzingIds with
    | none => { st with isAutoAnalyzing := false, toasts := completeToast :: st.toasts }
    | some p => handleAnalyze { st with lastAnalysisTime := now } p (outcomeOf p.id)

/-- The automatic run: the effect re-arms its timer only while
`isAutoAnalyzing` holds and the in-flight set is empty
(`analyzingIds.size === 0`); each firing runs one `processNext` cycle.
`times k` is the clock value at the cycle with remaining fuel `k`;
`outcomeOf` gives the captioning outcome per photo id. -/
def runAuto (outcomeOf : Nat → AnalyzeOutcome) (times : Nat → Nat) :
    Nat → BookState → BookState
  | 0, st => st
  | fuel + 1, st =>
      if st.isAutoAnalyzing && st.analyzingIds.isEmpty then
        runAuto outcomeOf times fuel (processNext st (times fuel) outcomeOf)
      else st

/-- Reasons an automatic run stops (§4.5 of the specification). -/
inductive StopReason
  | UserCancelled
  | Completed
  | FatalQuotaExceeded
deriving DecidableEq, Repr

/-- The spec's scheduler state machine states (§4.5). -/
inductive SchedState
  | Idle
  | Running
  | Stopped (reason : StopReason)
deriving DecidableEq, Repr

/-- Abstraction from the component state to the spec's scheduler state: the
run flag distinguishes `Running`; a cleared flag together with the newest
stop toast distinguishes the stop reason the user observes (the quota
toast for `FatalQuotaExceeded`, the completion toast for `Completed`); no
stop toast means the scheduler never ran. -/
def schedState (st : BookState) : SchedState :=
  if st.isAutoAnalyzing then SchedState.Running
  else
    match st.toasts.find? fun m => m == fatalStopToast || m == completeToast with
    | some m =>
        if m == fatalStopToast then SchedState.Stopped StopReason.FatalQuotaExceeded
        else SchedState.Stopped StopReason.Completed
    | none => SchedState.Idle

/-- `handleUpdateFilter` (AlbumBook lines 997-1009): persists a
filter-only patch through `updatePhotoMetadata` and mirrors the filter
change (and only the filter change) into the local state. -/
def handleUpdateFilter (st : BookState) (photoId : Nat) (f : Filter) : BookState :=
  { st with
    store := updatePhotoMetadata st.store photoId { filter := some f }
    photos := st.photos.map fun p =>
      if p.id = photoId then { p with filter := some f } else p }

/-- `saveEditing` (AlbumBook lines 1018-1044): persists the edit buffers
through `updatePhotoMetadata`; an unparsable date input falls back to the
current time (`parsedDate` is the parse of the buffer, `now` the fallback).
The local state mirrors the edit and sets `processed` as well. -/
def saveEditing (st : BookState) (photoId : Nat)
    (editDescription editLocation : String) (parsedDate : Option Nat) (now : Nat) :
    BookState :=
  { st with
    store := updatePhotoMetadata st.store photoId
      { description := some editDescription
        location := some editLocation
        timestamp := some (parsedDate.getD now) }
    photos := st.photos.map fun p =>
      if p.id = photoId then
        { p with
          description := some editDescription
          location := some editLocation
          timestamp := parsedDate.getD p.timestamp
          processed := true }
      else p }

/-- `RATE_LIMIT_DELAY` (AlbumBook auto-analyze effect, line 875): the
minimum inter-request interval, 22000 ms in the current revision. -/
def RATE_LIMIT_DELAY : Int := 22000

/-- The timer delay the auto-analyze effect computes before the next
request (lines 873-876): `Math.max(0, d - (now - lastAnalysisTime))`,
parameterized by the configured interval `d`. -/
def autoAnalyzeDelay (d now last : Int) : Int :=
  max 0 (d - (now - last))

/-- The request-start times of one automatic run, relative to the start
time `last` of the previous request. Derived from the effect (lines
869-880) and the browser timer contract: the effect arms a timer at some
time `sched` with delay `autoAnalyzeDelay d sched last` (reading
`lastAnalysisTime`, which `processNext` set to the previous request's
start); the callback fires — and records the new request start — no
earlier than `sched` plus that delay. -/
def ValidStartSeq (d : Int) : Int → List Int → Prop
  | _, [] => True
  | last, s :: rest =>
      (∃ sched : Int, sched + autoAnalyzeDelay d sched last ≤ s) ∧ ValidStartSeq d s rest

/-- The PDF export file name (AlbumBook `handleExportPDF`, lines
1242-1243): `album.title.replace(/[^a-z0-9]/gi, '_').toLowerCase() +
".pdf"` — every character outside `a-z`, `A-Z`, `0-9` is replaced by an
underscore, the result is lower-cased, and the `.pdf` extension appended.
`Char.isAlphanum` is exactly the ASCII class of the case-insensitive
regex. -/
def exportFileName (title : String) : String :=
  String.mk ((title.data.map fun c => if c.isAlphanum then c else '_').map Char.toLower)
    ++ ".pdf"

/-- The output file name as the claim words it: non-alphanumeric
characters stripped (removed), the rest lower-cased, `.pdf` appended. -/
def strippedFileName (title : String) : String :=
  String.mk ((title.data.filter fun c => c.isAlphanum).map Char.toLower) ++ ".pdf"

/-- The output file name as amended: every non-alphanumeric character
replaced by an underscore, the result lower-cased, `.pdf` appended. -/
def amendedFileName (title : String) : String :=
  String.mk (title.data.map fun c => if c.isAlphanum then c.toLower else '_') ++ ".pdf"

/-- `convertDMStoDD` (services/exifService.ts, first revision, lines
143-155): `dd = dms[0] + dms[1]/60 + dms[2]/3600`, negated by `dd * -1`
when the reference is `"S"` or `"W"`. Indexing is total with default 0
(the EXIF GPS tags always carry three components). -/
def convertDMStoDD (dms : List ℚ) (ref : String) : ℚ :=
  let dd := dms.getD 0 0 + dms.getD 1 0 / 60 + dms.getD 2 0 / 3600
  if ref = "S" ∨ ref = "W" then dd * (-1) else dd

/-- The decimal-degree formula as the spec states it: degrees plus
minutes/60 plus seconds/3600, negated when the reference is South or
West. -/
def specDecimalDegrees (d m s : ℚ) (ref : String) : ℚ :=
  if ref = "S" ∨ ref = "W" then -(d + m / 60 + s / 3600) else d + m / 60 + s / 3600

/-- The observable steps of the automatic scheduler, with the captioning
outcome per photo id fixed by `outcomeOf`.
* `issue`: the effect arms its timer only while the run flag holds and
  `analyzingIds.size === 0`; the fired `processNext` selects the first
  unprocessed, non-in-flight photo and `handleAnalyze` puts it in flight.
* `done`: `processNext` finds no candidate and stops the run.
* `complete`: an in-flight request settles; `handleAnalyze` applies the
  outcome and its `finally` block removes the id.
* `cancel`: the user toggles the run flag off. -/
inductive AutoStep (outcomeOf : Nat → AnalyzeOutcome) : BookState → BookState → Prop
  | issue (st : BookState) (p : Photo) (now : Nat) :
      st.isAutoAnalyzing = true →
      st.analyzingIds = [] →
      selectNext st.photos st.analyzingIds = some p →
      AutoStep outcomeOf st (beginAnalyze { st with lastAnalysisTime := now } p)
  | done (st : BookState) :
      st.isAutoAnalyzing = true →
      st.analyzingIds = [] →
      selectNext st.photos st.analyzingIds = none →
      AutoStep outcomeOf st
        { st with isAutoAnalyzing := false, toasts := completeToast :: st.toasts }
  | complete (st : BookState) (p : Photo) :
      p.id ∈ st.analyzingIds →
      AutoStep outcomeOf st (finishAnalyze st p (outcomeOf p.id))
  | cancel (st : BookState) :
      AutoStep outcomeOf st { st with isAutoAnalyzing := false }

/-- Reachability under automatic-scheduler steps. -/
def AutoReachable (outcomeOf : Nat → AnalyzeOutcome) : BookState → BookState → Prop :=
  Relation.ReflTransGen (AutoStep outcomeOf)

/-- One unprocessed photo of the spec's 5-photo scenario (§8): ids and
timestamps 1 to 5, imported into album 1, nothing analyzed yet. -/
def scenarioPhoto (i : Nat) : Photo :=
  { id := i
    albumId := 1
    mimeType := "image/jpeg"
    timestamp := i
    processed := false
    filter := some Filter.original }

/-- The five photos of the scenario, in album (timestamp) order. -/
def scenarioPhotos : List Photo :=
  [scenarioPhoto 1, scenarioPhoto 2, scenarioPhoto 3, scenarioPhoto 4, scenarioPhoto 5]

/-- The persisted store of the scenario. -/
def scenarioStore : Store :=
  { albums := [{ id := 1, title := "Trip", createdAt := 0, theme := Theme.vintage }]
    photos := scenarioPhotos
    nextAlbumId := 2
    nextPhotoId := 6 }

/-- Component state at the user's start of the automatic run. -/
def scenarioInit : BookState :=
  { photos := scenarioPhotos
    analyzingIds := []
    isAutoAnalyzing := true
    lastAnalysisTime := 0
    store := scenarioStore
    toasts := [] }

/-- The remote service of the scenario: success with a caption for photos
1-3, the fatal quota signal from photo 4 on. -/
def scenarioOutcome (id : Nat) : AnalyzeOutcome :=
  if id ≤ 3 then AnalyzeOutcome.success { description := "caption " ++ toString id }
  else AnalyzeOutcome.fatalQuota

/-- The end state of the scenario run (fuel 8 exceeds the cycles needed). -/
def scenarioFinal : BookState :=
  runAuto scenarioOutcome (fun k => 22000 * (8 - k)) 8 scenarioInit

/-- A concrete successful captioning result. -/
def witnessResult : GeminiAnalysisResult := { description := "caption" }

/-- Photo 1 of the scenario after a successful attempt with
`witnessResult`. -/
def witnessAnalyzed1 : Photo :=
  { scenarioPhoto 1 with description := some "caption", processed := true }

/-- Photo 1 of the scenario after a filter-only metadata update. -/
def witnessFiltered1 : Photo :=
  { scenarioPhoto 1 with filter := some Filter.bw, processed := true }

/-- A concrete imported file carrying EXIF metadata: a capture date and GPS
coordinates that differ from the file-system modification time. -/
def witnessImportFile : ImportFile :=
  { mimeType := "image/jpeg"
    lastModified := 1700000000000
    exifDate := some 1600000000000
    exifLatitude := some (175889 / 3600)
    exifLongitude := some (9 / 4) }

/-- A store with no records yet. -/
def emptyStore : Store :=
  { albums := [], photos := [], nextAlbumId := 1, nextPhotoId := 1 }

/-- A photo belonging to album 2 in the two-album witness store. -/
def witnessPhotoB : Photo :=
  { id := 2, albumId := 2, mimeType := "image/png", timestamp := 5, processed := true }

/-- A store holding two albums, one photo each. -/
def witnessStore : Store :=
  { albums :=
      [{ id := 1, title := "A", createdAt := 0, theme := Theme.vintage },
       { id := 2, title := "B", createdAt := 1, theme := Theme.minimal }]
    photos :=
      [{ id := 1, albumId := 1, mimeType := "image/jpeg", timestamp := 3, processed := false },
       witnessPhotoB]
    nextAlbumId := 3
    nextPhotoId := 3 }

/-- Members of the photo table after `updatePhotoMetadata` that carry the
updated identifier have `processed = true`. -/
theorem updatePhotoMetadata_processed (s : Store) (id : Nat) (m : MetadataPatch) :
    ∀ q ∈ (updatePhotoMetadata s id m).photos, q.id = id → q.processed = true := by
  intro q hq hid
  simp only [updatePhotoMetadata, List.mem_map] at hq
  obtain ⟨orig, -, rfl⟩ := hq
  by_cases h : orig.id = id
  · simp [h]
  · simp only [if_neg h] at hid ⊢
    exact absurd hid h

/-- C9: the extractor's DMS-to-decimal-degrees conversion equals degrees
plus minutes/60 plus seconds/3600, negated for a South or West reference;
on the DMS triple [48, 51, 29] it yields 175889/3600, which lies within
1/10000 of 48.8581 for reference "N", and the negation for "S". -/
theorem convert_dms_to_dd_formula :
    (∀ (d m s : ℚ) (ref : String),
        convertDMStoDD [d, m, s] ref = specDecimalDegrees d m s ref)
    ∧ convertDMStoDD [48, 51, 29] "N" = 175889 / 3600
    ∧ |convertDMStoDD [48, 51, 29] "N" - 488581 / 10000| < 1 / 10000
    ∧ convertDMStoDD [48, 51, 29] "S" = -(175889 / 3600)
    ∧ |convertDMStoDD [48, 51, 29] "S" + 488581 / 10000| < 1 / 10000 := by
  have hcond : ¬("N" = "S" ∨ "N" = "W") := by decide
  have hN : convertDMStoDD [48, 51, 29] "N" = 175889 / 3600 := by
    simp only [convertDMStoDD]
    rw [if_neg hcond]
    norm_num [List.getD_cons_zero, List.getD_cons_succ]
  have hS : convertDMStoDD [48, 51, 29] "S" = -(175889 / 3600) := by
    norm_num [convertDMStoDD]
  refine ⟨?_, hN, ?_, hS, ?_⟩
  · intro d m s ref
    by_cases h : ref = "S" ∨ ref = "W" <;>
      simp [convertDMStoDD, specDecimalDegrees, h]
  · rw [hN, abs_lt]
    constructor <;> norm_num
  · rw [hS, abs_lt]
    constructor <;> norm_num

/-- C8 counterexample: for the album title "My Album" the export produces
"my_album.pdf", not the "myalbum.pdf" that stripping non-alphanumeric
characters would give — the code replaces them with underscores instead of
removing them. -/
theorem export_file_name_not_stripped :
    exportFileName "My Album" = "my_album.pdf"
    ∧ strippedFileName "My Album" = "myalbum.pdf"
    ∧ exportFileName "My Album" ≠ strippedFileName "My Album" := by
  refine ⟨by decide, by decide, by decide⟩

/-- C8 as amended: for every album, the PDF export's output file name
equals the album title with every non-alphanumeric character replaced by
an underscore, lower-cased, followed by the .pdf extension. -/
theorem export_file_name_replaces_with_underscore (title : String) :
    exportFileName title = amendedFileName title := by
  unfold exportFileName amendedFileName
  rw [List.map_map]
  have h : (Char.toLower ∘ fun c => if c.isAlphanum then c else '_')
      = fun c => if c.isAlphanum then c.toLower else '_' := by
    funext c
    by_cases hc : c.isAlphanum <;> simp [hc, Function.comp]
  rw [h]

/-- C6: a committed album deletion leaves no photo carrying the deleted
album's identifier and removes the album record; an aborted deletion
leaves the store in its pre-deletion state. -/
theorem delete_album_cascades_or_leaves_unchanged (s : Store) (id : Nat) :
    (∀ p ∈ (deleteAlbum s id true).photos, p.albumId ≠ id)
    ∧ (∀ a ∈ (deleteAlbum s id true).albums, a.id ≠ id)
    ∧ deleteAlbum s id false = s := by
  refine ⟨?_, ?_, rfl⟩
  · intro p hp
    simp only [deleteAlbum, if_pos, deleteAlbumApply, List.mem_filter, bne_iff_ne] at hp
    exact hp.2
  · intro a ha
    simp only [deleteAlbum, if_pos, deleteAlbumApply, List.mem_filter, bne_iff_ne] at ha
    exact ha.2

/-- Witness for C6: with the concrete two-album store, the photo of album 2
survives deleting album 1 with a different album identifier, and an
aborted deletion returns the store unchanged. -/
theorem delete_album_cascades_witness :
    witnessPhotoB.albumId ≠ 1 ∧ deleteAlbum witnessStore 1 false = witnessStore :=
  ⟨(delete_album_cascades_or_leaves_unchanged witnessStore 1).1 witnessPhotoB (by decide),
   (delete_album_cascades_or_leaves_unchanged witnessStore 1).2.2⟩

/-- C7: the metadata the extractor reports for the witness file (a capture
date and GPS coordinates) does not populate the created photo record — the
importing handlers never invoke the extractor: the record's timestamp is the
file's modification time and its coordinate fields stay empty. -/
theorem import_ignores_extracted_metadata :
    (getExifData witnessImportFile).latitude = some (175889 / 3600)
    ∧ (getExifData witnessImportFile).date = some 1600000000000
    ∧ ((handlePhotosAdded emptyStore 1 [witnessImportFile]).photos.map fun p =>
        (p.latitude, p.longitude, p.timestamp))
      = [(none, none, 1700000000000)] := by
  refine ⟨rfl, rfl, rfl⟩

/-- A timer armed at `sched` with the effect's computed delay fires no
earlier than the configured interval after the previous request start. -/
theorem autoAnalyzeDelay_start_gap {d last sched s : Int}
    (h : sched + autoAnalyzeDelay d sched last ≤ s) : last + d ≤ s := by
  unfold autoAnalyzeDelay at h
  rcases le_total (d - (sched - last)) 0 with h1 | h1
  · rw [max_eq_left h1] at h
    omega
  · rw [max_eq_right h1] at h
    omega

/-- C2: along any automatic run, consecutive request starts generated by
the effect's timer discipline are at least the configured interval apart
(start to start) — for any configured constant, and in particular for the
22000 ms `RATE_LIMIT_DELAY` of the current revision. -/
theorem auto_requests_respect_min_interval :
    (∀ (d last : Int) (starts : List Int), ValidStartSeq d last starts →
        List.Chain' (fun a b => a + d ≤ b) (last :: starts))
    ∧ (∀ (last : Int) (starts : List Int), ValidStartSeq RATE_LIMIT_DELAY last starts →
        List.Chain' (fun a b => a + RATE_LIMIT_DELAY ≤ b) (last :: starts)) := by
  have main : ∀ (d : Int) (starts : List Int) (last : Int), ValidStartSeq d last starts →
      List.Chain' (fun a b => a + d ≤ b) (last :: starts) := by
    intro d starts
    induction starts with
    | nil =>
        intro last _
        simp
    | cons s rest ih =>
        intro last h
        obtain ⟨⟨sched, hs⟩, hrest⟩ := h
        rw [List.chain'_cons]
        exact ⟨autoAnalyzeDelay_start_gap hs, ih s hrest⟩
  exact ⟨fun d last starts h => main d starts last h,
         fun last starts h => main RATE_LIMIT_DELAY starts last h⟩

/-- Witness for C2: the request starts 0, 22000, 44000 respect the
scheduling discipline and are pairwise one interval apart. -/
theorem auto_requests_interval_witness :
    List.Chain' (fun a b => a + RATE_LIMIT_DELAY ≤ b)
      [(0 : Int), 22000, 44000] :=
  auto_requests_respect_min_interval.2 0 [22000, 44000]
    ⟨⟨0, by decide⟩, ⟨22000, by decide⟩, trivial⟩

/-- `handleAnalyze` on a photo that is not in flight and has a real id,
with a successful outcome: the persisted store is the metadata update with
the result. -/
theorem handleAnalyze_success_store (st : BookState) (p : Photo)
    (r : GeminiAnalysisResult) (hin : p.id ∉ st.analyzingIds) (h0 : p.id ≠ 0) :
    (handleAnalyze st p (AnalyzeOutcome.success r)).store
      = updatePhotoMetadata st.store p.id (patchOfResult r) := by
  simp [handleAnalyze, beginAnalyze, finishAnalyze, hin, h0]

/-- `handleAnalyze` with a non-fatal (null) outcome: the persisted store is
the metadata update with the empty patch. -/
theorem handleAnalyze_nonFatal_store (st : BookState) (p : Photo)
    (hin : p.id ∉ st.analyzingIds) (h0 : p.id ≠ 0) :
    (handleAnalyze st p AnalyzeOutcome.nonFatal).store
      = updatePhotoMetadata st.store p.id {} := by
  simp [handleAnalyze, beginAnalyze, finishAnalyze, hin, h0]

/-- `handleAnalyze` with a fatal quota outcome: the run flag is cleared,
the quota toast is shown, and nothing else of the state changes. -/
theorem handleAnalyze_fatal_eq (st : BookState) (p : Photo)
    (hin : p.id ∉ st.analyzingIds) (h0 : p.id ≠ 0) :
    handleAnalyze st p AnalyzeOutcome.fatalQuota
      = { st with isAutoAnalyzing := false, toasts := fatalStopToast :: st.toasts } := by
  simp [handleAnalyze, beginAnalyze, finishAnalyze, hin, h0]

/-- C1: a fatal quota failure makes the very step that received it clear
the run flag and surface the quota stop — the abstracted scheduler state is
`Stopped(FatalQuotaExceeded)` — while the persisted store is untouched, so
the photo keeps `processed = false`; and in the spec's 5-photo scenario
(successes on photos 1-3, quota failure on photo 4) the run ends with
photos 1-3 processed and captioned, photos 4 and 5 unprocessed, and the
scheduler stopped on the quota reason. -/
theorem fatal_quota_stops_run (st : BookState) (p : Photo)
    (hin : p.id ∉ st.analyzingIds) (h0 : p.id ≠ 0) :
    (handleAnalyze st p AnalyzeOutcome.fatalQuota).store = st.store
    ∧ (handleAnalyze st p AnalyzeOutcome.fatalQuota).photos = st.photos
    ∧ schedState (handleAnalyze st p AnalyzeOutcome.fatalQuota)
        = SchedState.Stopped StopReason.FatalQuotaExceeded
    ∧ (scenarioFinal.store.photos.map fun q => (q.id, q.processed, q.description))
        = [(1, true, some "caption 1"), (2, true, some "caption 2"),
           (3, true, some "caption 3"), (4, false, none), (5, false, none)]
    ∧ schedState scenarioFinal = SchedState.Stopped StopReason.FatalQuotaExceeded := by
  have hfe := handleAnalyze_fatal_eq st p hin h0
  refine ⟨by rw [hfe], by rw [hfe], ?_, by decide, by decide⟩
  rw [hfe]
  rfl

/-- Witness for C1: the fatal step applied to photo 4 of the scenario's
initial state leaves the persisted store untouched. -/
theorem fatal_quota_stops_run_witness :
    (handleAnalyze scenarioInit (scenarioPhoto 4) AnalyzeOutcome.fatalQuota).store
      = scenarioInit.store
    ∧ schedState (handleAnalyze scenarioInit (scenarioPhoto 4) AnalyzeOutcome.fatalQuota)
      = SchedState.Stopped StopReason.FatalQuotaExceeded :=
  ⟨(fatal_quota_stops_run scenarioInit (scenarioPhoto 4) (by decide) (by decide)).1,
   (fatal_quota_stops_run scenarioInit (scenarioPhoto 4) (by decide) (by decide)).2.2.1⟩

/-- C3: after an attempt that completes with success or with a non-fatal
failure the photo's persisted `processed` flag is true; after a fatal
failure the persisted store — hence the flag — is unchanged. -/
theorem processed_true_after_attempt (st : BookState) (p : Photo)
    (r : GeminiAnalysisResult) (hin : p.id ∉ st.analyzingIds) (h0 : p.id ≠ 0) :
    (∀ q ∈ (handleAnalyze st p (AnalyzeOutcome.success r)).store.photos,
        q.id = p.id → q.processed = true)
    ∧ (∀ q ∈ (handleAnalyze st p AnalyzeOutcome.nonFatal).store.photos,
        q.id = p.id → q.processed = true)
    ∧ (handleAnalyze st p AnalyzeOutcome.fatalQuota).store = st.store := by
  refine ⟨?_, ?_, ?_⟩
  · rw [handleAnalyze_success_store st p r hin h0]
    exact updatePhotoMetadata_processed st.store p.id (patchOfResult r)
  · rw [handleAnalyze_nonFatal_store st p hin h0]
    exact updatePhotoMetadata_processed st.store p.id {}
  · rw [handleAnalyze_fatal_eq st p hin h0]

/-- Witness for C3: on photo 1 of the scenario a successful attempt yields
the processed record, while a fatal attempt leaves the store unchanged. -/
theorem processed_true_after_attempt_witness :
    witnessAnalyzed1.processed = true
    ∧ (handleAnalyze scenarioInit (scenarioPhoto 1) AnalyzeOutcome.fatalQuota).store
      = scenarioInit.store :=
  ⟨(processed_true_after_attempt scenarioInit (scenarioPhoto 1) witnessResult
      (by decide) (by decide)).1 witnessAnalyzed1 (by decide) (by decide),
   (processed_true_after_attempt scenarioInit (scenarioPhoto 1) witnessResult
      (by decide) (by decide)).2.2⟩

/-- C4: an attempt that ends in a non-fatal captioning failure marks the
photo processed but persists no new metadata fields: every field of every
record except the `processed` flag reads as before. -/
theorem nonfatal_marks_processed_no_new_fields (st : BookState) (p : Photo)
    (hin : p.id ∉ st.analyzingIds) (h0 : p.id ≠ 0) :
    ((handleAnalyze st p AnalyzeOutcome.nonFatal).store.photos.map fun q =>
        (q.id, q.albumId, q.mimeType, q.timestamp, q.description, q.location,
         q.latitude, q.longitude, q.landmarks, q.filter))
      = (st.store.photos.map fun q =>
        (q.id, q.albumId, q.mimeType, q.timestamp, q.description, q.location,
         q.latitude, q.longitude, q.landmarks, q.filter))
    ∧ ∀ q ∈ (handleAnalyze st p AnalyzeOutcome.nonFatal).store.photos,
        q.id = p.id → q.processed = true := by
  rw [handleAnalyze_nonFatal_store st p hin h0]
  refine ⟨?_, updatePhotoMetadata_processed st.store p.id {}⟩
  simp only [updatePhotoMetadata, List.map_map]
  apply List.map_congr_left
  intro q _
  by_cases h : q.id = p.id <;> simp [h, applyPatch]

/-- Witness for C4: a non-fatal attempt on photo 1 of the scenario leaves
every metadata field of every record as it was. -/
theorem nonfatal_no_new_fields_witness :
    ((handleAnalyze scenarioInit (scenarioPhoto 1) AnalyzeOutcome.nonFatal).store.photos.map
        fun q =>
        (q.id, q.albumId, q.mimeType, q.timestamp, q.description, q.location,
         q.latitude, q.longitude, q.landmarks, q.filter))
      = (scenarioInit.store.photos.map fun q =>
        (q.id, q.albumId, q.mimeType, q.timestamp, q.description, q.location,
         q.latitude, q.longitude, q.landmarks, q.filter)) :=
  (nonfatal_marks_processed_no_new_fields scenarioInit (scenarioPhoto 1)
    (by decide) (by decide)).1

/-- The `finally` block of `handleAnalyze` removes the settled request's
id from the in-flight set, whatever the outcome changed. -/
theorem finishAnalyze_analyzingIds (st : BookState) (p : Photo) (o : AnalyzeOutcome) :
    (finishAnalyze st p o).analyzingIds = st.analyzingIds.erase p.id := by
  cases o <;> simp [finishAnalyze]

/-- C5: under automatic scheduling at most one captioning request is ever
in flight — a request is only issued from a state with an empty in-flight
set, so every state reachable from such a state keeps the set's size at
most one — and `handleAnalyze` never re-enters a photo already in flight. -/
theorem at_most_one_request_in_flight (outcomeOf : Nat → AnalyzeOutcome)
    (st st' : BookState) (hstart : st.analyzingIds.length ≤ 1)
    (hreach : AutoReachable outcomeOf st st') :
    st'.analyzingIds.length ≤ 1
    ∧ ∀ (s : BookState) (p : Photo) (o : AnalyzeOutcome),
        p.id ∈ s.analyzingIds → handleAnalyze s p o = s := by
  constructor
  · have hr : Relation.ReflTransGen (AutoStep outcomeOf) st st' := hreach
    clear hreach
    induction hr with
    | refl => exact hstart
    | tail hab hstep ih =>
        cases hstep with
        | issue p now h1 h2 h3 => simp [beginAnalyze, h2]
        | done h1 h2 h3 => simpa using ih
        | complete p hp =>
            rw [finishAnalyze_analyzingIds]
            exact le_trans (List.erase_sublist p.id _).length_le ih
        | cancel => simpa using ih
  · intro s p o hp
    simp [handleAnalyze, hp]

/-- Witness for C5: from the scenario's initial state (empty in-flight
set) the invariant holds reflexively, and `handleAnalyze` is the identity
on a state in which photo 4 is already in flight. -/
theorem at_most_one_request_in_flight_witness :
    scenarioInit.analyzingIds.length ≤ 1
    ∧ handleAnalyze { scenarioInit with analyzingIds := [4] } (scenarioPhoto 4)
        AnalyzeOutcome.nonFatal
      = { scenarioInit with analyzingIds := [4] } :=
  ⟨(at_most_one_request_in_flight scenarioOutcome scenarioInit scenarioInit (by decide)
      Relation.ReflTransGen.refl).1,
   (at_most_one_request_in_flight scenarioOutcome scenarioInit scenarioInit (by decide)
      Relation.ReflTransGen.refl).2
      { scenarioInit with analyzingIds := [4] } (scenarioPhoto 4)
      AnalyzeOutcome.nonFatal (by decide)⟩

/-- C10: every `updatePhotoMetadata` call — including the filter-only
patch of `handleUpdateFilter` and the manual edit of `saveEditing` — sets
the persisted `processed` flag of the touched photo to true whatever
fields the patch supplies; the automatic scheduler's candidate selection
only ever returns an unprocessed photo, so a photo whose record is loaded
from the store after any such call is excluded from automatic analysis. -/
theorem update_metadata_always_marks_processed :
    (∀ (s : Store) (id : Nat) (m : MetadataPatch),
        ∀ q ∈ (updatePhotoMetadata s id m).photos, q.id = id → q.processed = true)
    ∧ (∀ (st : BookState) (photoId : Nat) (f : Filter),
        ∀ q ∈ (handleUpdateFilter st photoId f).store.photos,
          q.id = photoId → q.processed = true)
    ∧ (∀ (st : BookState) (photoId : Nat) (d l : String) (pd : Option Nat) (now : Nat),
        ∀ q ∈ (saveEditing st photoId d l pd now).store.photos,
          q.id = photoId → q.processed = true)
    ∧ (∀ (photos : List Photo) (ids : List Nat) (p : Photo),
        selectNext photos ids = some p → p.processed = false)
    ∧ (∀ (s : Store) (id : Nat) (m : MetadataPatch) (albumId : Nat)
          (ids : List Nat) (p : Photo),
        selectNext (loadPhotos (updatePhotoMetadata s id m) albumId) ids = some p →
          p.id ≠ id) := by
  have hsel : ∀ (photos : List Photo) (ids : List Nat) (p : Photo),
      selectNext photos ids = some p → p.processed = false ∧ p ∈ photos := by
    intro photos ids p hp
    have hpred := List.find?_some hp
    have hmem := List.mem_of_find?_eq_some hp
    simp only [Bool.and_eq_true, Bool.not_eq_eq_eq_not, Bool.not_true] at hpred
    exact ⟨by simpa using hpred.1, hmem⟩
  refine ⟨updatePhotoMetadata_processed, ?_, ?_, ?_, ?_⟩
  · intro st photoId f
    exact updatePhotoMetadata_processed st.store photoId { filter := some f }
  · intro st photoId d l pd now
    exact updatePhotoMetadata_processed st.store photoId
      { description := some d, location := some l, timestamp := some (pd.getD now) }
  · intro photos ids p hp
    exact (hsel photos ids p hp).1
  · intro s id m albumId ids p hp hid
    have hmem : p ∈ (updatePhotoMetadata s id m).photos := by
      have h1 := (hsel _ ids p hp).2
      rw [loadPhotos] at h1
      rw [List.mem_insertionSort] at h1
      exact (List.mem_filter.mp h1).1
    have := updatePhotoMetadata_processed s id m p hmem hid
    rw [(hsel _ ids p hp).1] at this
    exact Bool.false_ne_true this

/-- Witness for C10: the filter-only update on photo 1 of the scenario
store yields the processed record, and with photo 1 thus processed the
scheduler's selection over the reloaded album picks photo 2, not photo 1. -/
theorem update_metadata_marks_processed_witness :
    witnessFiltered1.processed = true ∧ (scenarioPhoto 2).id ≠ 1 :=
  ⟨update_metadata_always_marks_processed.1 scenarioStore 1 { filter := some Filter.bw }
      witnessFiltered1 (by decide) (by decide),
   update_metadata_always_marks_processed.2.2.2.2 scenarioStore 1
      { filter := some Filter.bw } 1 [] (scenarioPhoto 2) (by decide)⟩

/-- C10 counterexample: a filter-only change on the never-analyzed photo 1
marks the persisted record processed, but `handleUpdateFilter` mirrors only
the filter into the in-memory photo list — that copy's `processed` flag
stays false — and no reload precedes a run started by the toggle, so the
scheduler's candidate selection over the same-session state still returns
photo 1: the photo is not excluded from all future automatic runs. -/
theorem filter_only_change_still_selected :
    ((handleUpdateFilter scenarioInit 1 Filter.bw).store.photos.map fun q =>
        (q.id, q.processed))
      = [(1, true), (2, false), (3, false), (4, false), (5, false)]
    ∧ ((handleUpdateFilter scenarioInit 1 Filter.bw).photos.map fun q =>
        (q.id, q.processed))
      = [(1, false), (2, false), (3, false), (4, false), (5, false)]
    ∧ selectNext (handleUpdateFilter scenarioInit 1 Filter.bw).photos []
      = some { scenarioPhoto 1 with filter := some Filter.bw } := by
  refine ⟨by decide, by decide, by decide⟩

end PhotoAlbum
